import Mathlib

/-
Formal model of the Food Waste Saver backend (src/main.py, src/schemas.py).

Conventions of the shallow embedding:
* MongoDB collections are association lists keyed by the _id string;
  MongoDB guarantees _id uniqueness, which appears below as nodupKeys
  hypotheses.
* Prices are IEEE floats in the source but are only stored and
  sign-compared, so they are modelled as integers; datetimes are modelled
  as integer timestamps (only order matters).
* The single atomic primitive of the program is the find_one_and_update
  call in create_reservation (main.py lines 93-97); a concurrent execution
  of N such calls is an arbitrary sequential order of N atomic steps.
-/

set_option maxRecDepth 8000

/-- Offer document as persisted in the "offer" collection (schemas.py
Offer, main.py OfferCreate fields). The updated_at field is absent until
the first successful reservation sets it via the update's set clause. -/
structure Offer where
  store_id : String
  title : String
  description : Option String
  image_url : Option String
  city : String
  original_price : Int
  price : Int
  quantity : Int
  pickup_start : Int
  pickup_end : Int
  tags : List String
  updated_at : Option Int
deriving DecidableEq

/-- The "offer" collection: documents keyed by their _id string. -/
abbrev OfferStore := List (String × Offer)

/-- First document with the given _id, as MongoDB would resolve a lookup. -/
def lookupOffer (oid : String) : OfferStore → Option Offer
  | [] => none
  | e :: rest => if e.1 = oid then some e.2 else lookupOffer oid rest

/-- The _id column of the collection. -/
def storeKeys (st : OfferStore) : List String := st.map Prod.fst

/-- Uniqueness of _id, guaranteed by MongoDB for every real collection. -/
abbrev nodupKeys (st : OfferStore) : Prop := (storeKeys st).Nodup

/-- The document update applied by the reservation's find_one_and_update:
inc quantity by -1 and set updated_at to the current time
(main.py line 95). -/
def reserveUpdate (now : Int) (off : Offer) : Offer :=
  { off with quantity := off.quantity - 1, updated_at := some now }

/-- The atomic conditional decrement of main.py lines 93-97: the first
document matching (_id = oid and quantity greater than 0) is updated by
reserveUpdate in one indivisible step and returned post-update
(return_document true); if no document matches, nothing is written and
none is returned. -/
def tryReserveOne (now : Int) (oid : String) : OfferStore → Option Offer × OfferStore
  | [] => (none, [])
  | e :: rest =>
    if e.1 = oid ∧ 0 < e.2.quantity then
      (some (reserveUpdate now e.2), (e.1, reserveUpdate now e.2) :: rest)
    else
      let r := tryReserveOne now oid rest
      (r.1, e :: r.2)

/-- Pointwise replacement of the document keyed oid, used to describe the
effect of a successful tryReserveOne on the collection. -/
def mapUpd (oid : String) (x : Offer) (st : OfferStore) : OfferStore :=
  st.map fun e => if e.1 = oid then (oid, x) else e

theorem storeKeys_tryReserveOne (now : Int) (oid : String) (st : OfferStore) :
    storeKeys (tryReserveOne now oid st).2 = storeKeys st := by
  induction st with
  | nil => rfl
  | cons e rest ih =>
    simp only [tryReserveOne]
    split
    · rfl
    · simp only [storeKeys, List.map_cons] at ih ⊢
      exact congrArg _ ih

theorem lookupOffer_eq_none_iff (oid : String) (st : OfferStore) :
    lookupOffer oid st = none ↔ oid ∉ storeKeys st := by
  induction st with
  | nil => simp [lookupOffer, storeKeys]
  | cons e rest ih =>
    by_cases h : e.1 = oid
    · simp [lookupOffer, storeKeys, h]
    · simp only [lookupOffer, storeKeys, List.map_cons, List.mem_cons, if_neg h] at ih ⊢
      rw [ih]
      constructor
      · intro hh hc
        rcases hc with hc | hc
        · exact h hc.symm
        · exact hh hc
      · intro hh hc
        exact hh (Or.inr hc)

theorem lookupOffer_mem {oid : String} {st : OfferStore} {off : Offer}
    (h : lookupOffer oid st = some off) : (oid, off) ∈ st := by
  induction st with
  | nil => simp [lookupOffer] at h
  | cons e rest ih =>
    by_cases he : e.1 = oid
    · simp only [lookupOffer, if_pos he] at h
      injection h with h
      subst h
      rw [← he]
      exact List.mem_cons_self e rest
    · simp only [lookupOffer, if_neg he] at h
      exact List.mem_cons_of_mem _ (ih h)

theorem tryReserveOne_absent {oid : String} {st : OfferStore} (now : Int)
    (h : lookupOffer oid st = none) : tryReserveOne now oid st = (none, st) := by
  induction st with
  | nil => rfl
  | cons e rest ih =>
    by_cases he : e.1 = oid
    · simp [lookupOffer, if_pos he] at h
    · simp only [lookupOffer, if_neg he] at h
      simp only [tryReserveOne]
      rw [if_neg (fun hc => he hc.1)]
      simp [ih h]

theorem mapUpd_not_mem {oid : String} {st : OfferStore} (x : Offer)
    (h : oid ∉ storeKeys st) : mapUpd oid x st = st := by
  induction st with
  | nil => rfl
  | cons e rest ih =>
    simp only [storeKeys, List.map_cons, List.mem_cons] at h
    push_neg at h
    simp only [mapUpd, List.map_cons] at ih ⊢
    rw [if_neg (fun hc => h.1 hc.symm), ih h.2]

theorem nodupKeys_cons {e : String × Offer} {rest : OfferStore}
    (h : nodupKeys (e :: rest)) : e.1 ∉ storeKeys rest ∧ nodupKeys rest := by
  simp only [nodupKeys, storeKeys, List.map_cons, List.nodup_cons] at h
  exact h

theorem tryReserveOne_soldout {oid : String} {st : OfferStore} {off : Offer} (now : Int)
    (hnd : nodupKeys st) (hlk : lookupOffer oid st = some off) (hq : off.quantity ≤ 0) :
    tryReserveOne now oid st = (none, st) := by
  induction st with
  | nil => simp [lookupOffer] at hlk
  | cons e rest ih =>
    by_cases he : e.1 = oid
    · simp only [lookupOffer, if_pos he] at hlk
      injection hlk with hlk
      have hq2 : ¬ 0 < e.2.quantity := by rw [hlk]; omega
      have hrest : oid ∉ storeKeys rest := by
        have h1 := (nodupKeys_cons hnd).1
        rwa [he] at h1
      simp only [tryReserveOne]
      rw [if_neg (fun hc => hq2 hc.2)]
      rw [tryReserveOne_absent now ((lookupOffer_eq_none_iff oid rest).mpr hrest)]
    · simp only [lookupOffer, if_neg he] at hlk
      simp only [tryReserveOne]
      rw [if_neg (fun hc => he hc.1)]
      rw [ih (nodupKeys_cons hnd).2 hlk]

theorem tryReserveOne_success {oid : String} {st : OfferStore} {off : Offer} (now : Int)
    (hnd : nodupKeys st) (hlk : lookupOffer oid st = some off) (hq : 0 < off.quantity) :
    tryReserveOne now oid st =
      (some (reserveUpdate now off), mapUpd oid (reserveUpdate now off) st) := by
  induction st with
  | nil => simp [lookupOffer] at hlk
  | cons e rest ih =>
    by_cases he : e.1 = oid
    · simp only [lookupOffer, if_pos he] at hlk
      injection hlk with hlk
      subst hlk
      have hrest : oid ∉ storeKeys rest := by
        have h1 := (nodupKeys_cons hnd).1
        rwa [he] at h1
      simp only [tryReserveOne]
      rw [if_pos ⟨he, hq⟩]
      rw [show mapUpd oid (reserveUpdate now e.2) (e :: rest)
            = (oid, reserveUpdate now e.2) :: mapUpd oid (reserveUpdate now e.2) rest from by
          simp [mapUpd, he]]
      rw [mapUpd_not_mem _ hrest, he]
    · simp only [lookupOffer, if_neg he] at hlk
      have hih := ih (nodupKeys_cons hnd).2 hlk
      simp only [tryReserveOne]
      rw [if_neg (fun hc => he hc.1), hih]
      simp [mapUpd, he]

theorem lookupOffer_mapUpd_self {oid : String} {st : OfferStore} {off : Offer} (x : Offer)
    (hlk : lookupOffer oid st = some off) :
    lookupOffer oid (mapUpd oid x st) = some x := by
  induction st with
  | nil => simp [lookupOffer] at hlk
  | cons e rest ih =>
    by_cases he : e.1 = oid
    · simp [mapUpd, lookupOffer, he]
    · simp only [lookupOffer, if_neg he] at hlk
      rw [show mapUpd oid x (e :: rest) = e :: mapUpd oid x rest from by simp [mapUpd, he]]
      simp only [lookupOffer, if_neg he]
      exact ih hlk

theorem lookupOffer_mapUpd_other {oid k : String} {st : OfferStore} (x : Offer)
    (hk : k ≠ oid) : lookupOffer k (mapUpd oid x st) = lookupOffer k st := by
  induction st with
  | nil => rfl
  | cons e rest ih =>
    by_cases he : e.1 = oid
    · rw [show mapUpd oid x (e :: rest) = (oid, x) :: mapUpd oid x rest from by
        simp [mapUpd, he]]
      simp only [lookupOffer]
      rw [if_neg (fun hc => hk hc.symm), if_neg (fun hc => hk (he.symm.trans hc).symm)]
      exact ih
    · rw [show mapUpd oid x (e :: rest) = e :: mapUpd oid x rest from by simp [mapUpd, he]]
      simp only [lookupOffer]
      by_cases hek : e.1 = k
      · rw [if_pos hek, if_pos hek]
      · rw [if_neg hek, if_neg hek]
        exact ih

theorem storeKeys_mapUpd (oid : String) (x : Offer) (st : OfferStore) :
    storeKeys (mapUpd oid x st) = storeKeys st := by
  induction st with
  | nil => rfl
  | cons e rest ih =>
    simp only [mapUpd, storeKeys, List.map_cons] at ih ⊢
    by_cases he : e.1 = oid
    · rw [if_pos he, ih, he]
    · rw [if_neg he, ih]

theorem tryReserveOne_nonneg {st : OfferStore} (now : Int) (oid : String)
    (h : ∀ f ∈ st, 0 ≤ f.2.quantity) :
    ∀ f ∈ (tryReserveOne now oid st).2, 0 ≤ f.2.quantity := by
  induction st with
  | nil => simp [tryReserveOne]
  | cons e rest ih =>
    by_cases hc : e.1 = oid ∧ 0 < e.2.quantity
    · simp only [tryReserveOne, if_pos hc]
      intro f hf
      rcases List.mem_cons.mp hf with hf | hf
      · subst hf
        have h2 := hc.2
        show 0 ≤ e.2.quantity - 1
        omega
      · exact h f (List.mem_cons_of_mem _ hf)
    · simp only [tryReserveOne, if_neg hc]
      intro f hf
      rcases List.mem_cons.mp hf with hf | hf
      · subst hf
        exact h f (List.mem_cons_self _ _)
      · exact ih (fun g hg => h g (List.mem_cons_of_mem _ hg)) f hf

/-- Hexadecimal digits, the character set of a BSON ObjectId string. -/
def hexChars : List Char :=
  ['a', '0', 'b', '1', 'c', '2', 'd', '3', 'e', '4', 'f', '5',
   'A', '6', 'B', '7', 'C', '8', 'D', '9', 'E', 'F']

/-- A string is accepted by the bson ObjectId constructor exactly when it
is a 24-character hexadecimal string; anything else raises InvalidId at
construction time (main.py line 94 builds ObjectId(payload.offer_id)). -/
def isValidObjectId (s : String) : Bool :=
  s.length == 24 && s.data.all fun c => decide (c ∈ hexChars)

/-- ASCII upcasing of one character, as Python str.upper acts on the
ASCII characters that can occur in an ObjectId string. -/
def upperChar (c : Char) : Char :=
  if 'a' ≤ c && c ≤ 'z' then Char.ofNat (c.toNat - 32) else c

/-- ASCII downcasing of one character, as Python str.lower / the regex
option i treat ASCII characters. -/
def lowerChar (c : Char) : Char :=
  if 'A' ≤ c && c ≤ 'Z' then Char.ofNat (c.toNat + 32) else c

/-- Python s.upper() on the ASCII strings this program produces. -/
def strUpper (s : String) : String := ⟨s.data.map upperChar⟩

/-- Python s.lower() on ASCII strings. -/
def strLower (s : String) : String := ⟨s.data.map lowerChar⟩

/-- Python s[-n:], the last n characters of s. -/
def lastN (s : String) (n : Nat) : String := ⟨s.data.drop (s.data.length - n)⟩

/-- The pickup code of main.py line 106: str(ObjectId())[-6:].upper(),
where freshOid stands for the string form of the freshly minted
ObjectId. -/
def pickupCodeOf (freshOid : String) : String := strUpper (lastN freshOid 6)

/-- Request body of POST /reservations (main.py ReservationCreate). -/
structure ReservationCreate where
  offer_id : String
  user_name : String
  user_phone : String
deriving DecidableEq

/-- Reservation document persisted in the "reservation" collection
(main.py lines 101-107). -/
structure ReservationDoc where
  offer_id : String
  user_name : String
  user_phone : String
  status : String
  pickup_code : String
deriving DecidableEq

/-- Outcomes of POST /reservations other than success: unavailable is the
HTTP 400 "Offer sold out or not found" raised at main.py line 99;
invalidId is the uncaught bson InvalidId raised while building
ObjectId(payload.offer_id), surfaced as a server error. -/
inductive ReserveError
  | invalidId
  | unavailable
deriving DecidableEq

/-- The "reservation" collection: documents keyed by their _id string. -/
abbrev ReservationStore := List (String × ReservationDoc)

/-- POST /reservations (main.py create_reservation, lines 86-109), with
the db configured. The two freshly minted ObjectIds (the one truncated
into the pickup code and the one create_document assigns to the new
reservation) are passed explicitly; they influence no branch.
The persistence step create_document lives in database.py, which is not
part of the sources; modelled from the spec: it appends the document to
the named collection and returns its new id. -/
def create_reservation (now : Int) (freshCodeOid freshResvId : String)
    (p : ReservationCreate) (st : OfferStore) (resvs : ReservationStore) :
    Except ReserveError (String × String) × OfferStore × ReservationStore :=
  if isValidObjectId p.offer_id then
    match tryReserveOne now p.offer_id st with
    | (some _, st2) =>
      let code := pickupCodeOf freshCodeOid
      let resv : ReservationDoc :=
        { offer_id := p.offer_id, user_name := p.user_name, user_phone := p.user_phone,
          status := "reserved", pickup_code := code }
      (Except.ok (freshResvId, code), st2, resvs ++ [(freshResvId, resv)])
    | (none, st2) => (Except.error ReserveError.unavailable, st2, resvs)
  else
    (Except.error ReserveError.invalidId, st, resvs)

theorem create_reservation_invalid (now : Int) (a b : String) (p : ReservationCreate)
    (st : OfferStore) (resvs : ReservationStore) (h : isValidObjectId p.offer_id = false) :
    create_reservation now a b p st resvs = (Except.error ReserveError.invalidId, st, resvs) := by
  simp [create_reservation, h]

theorem create_reservation_absent (now : Int) (a b : String) (p : ReservationCreate)
    (st : OfferStore) (resvs : ReservationStore) (hid : isValidObjectId p.offer_id = true)
    (h : lookupOffer p.offer_id st = none) :
    create_reservation now a b p st resvs = (Except.error ReserveError.unavailable, st, resvs) := by
  simp [create_reservation, hid, tryReserveOne_absent now h]

theorem create_reservation_soldout (now : Int) (a b : String) (p : ReservationCreate)
    (st : OfferStore) (resvs : ReservationStore) {off : Offer}
    (hid : isValidObjectId p.offer_id = true) (hnd : nodupKeys st)
    (hlk : lookupOffer p.offer_id st = some off) (hq : off.quantity ≤ 0) :
    create_reservation now a b p st resvs = (Except.error ReserveError.unavailable, st, resvs) := by
  simp [create_reservation, hid, tryReserveOne_soldout now hnd hlk hq]

theorem create_reservation_success (now : Int) (a b : String) (p : ReservationCreate)
    (st : OfferStore) (resvs : ReservationStore) {off : Offer}
    (hid : isValidObjectId p.offer_id = true) (hnd : nodupKeys st)
    (hlk : lookupOffer p.offer_id st = some off) (hq : 0 < off.quantity) :
    create_reservation now a b p st resvs =
      (Except.ok (b, pickupCodeOf a),
       mapUpd p.offer_id (reserveUpdate now off) st,
       resvs ++ [(b, { offer_id := p.offer_id, user_name := p.user_name,
                       user_phone := p.user_phone, status := "reserved",
                       pickup_code := pickupCodeOf a })]) := by
  simp [create_reservation, hid, tryReserveOne_success now hnd hlk hq]

/-- Characters that carry meaning in a PCRE pattern. The city filter of
list_offers interpolates user input into such a pattern, so these
characters are not matched literally there. -/
def isRegexSpecial (c : Char) : Bool :=
  [Char.ofNat 92, '^', Char.ofNat 36, '.', '|', '?', '*', '+',
   '(', ')', '[', ']', Char.ofNat 123, Char.ofNat 125].contains c

/-- Anchored case-insensitive regex matching over character lists for the
pattern subset in which the only regex metacharacter exercised is the dot
(any single character except newline); every other pattern character is
compared literally up to ASCII case. This models the MongoDB regex
operator with option i applied to the anchored pattern that list_offers
builds, faithfully for patterns free of the other special characters. -/
def regexCharsMatchI : List Char → List Char → Bool
  | [], [] => true
  | [], _ :: _ => false
  | _ :: _, [] => false
  | p :: ps, c :: cs =>
    (if p = '.' then c ≠ Char.ofNat 10 else lowerChar p = lowerChar c) &&
      regexCharsMatchI ps cs

/-- The city filter of main.py line 59: the document field must match the
anchored pattern built from the query value, case-insensitively. -/
def cityRegexMatchI (pat s : String) : Bool := regexCharsMatchI pat.data s.data

/-- Case-insensitive exact equality of strings. Modelled from the spec:
this renders the spec phrase "case-insensitive exact city match" and is
compared against the regex-based filter the source actually builds. -/
def ciExactMatch (a b : String) : Bool := strLower a == strLower b

/-- Python truthiness of an optional query string: None and the empty
string are falsy (main.py lines 58 and 60). -/
def pyTruthy : Option String → Bool
  | none => false
  | some s => s != ""

/-- The Mongo filter document built by list_offers (main.py lines 53-61):
pickup_end at least now, quantity above zero, and the optional city
regex / tag equality clauses, added only when the query value is truthy. -/
structure FilterDict where
  pickup_end_gte : Int
  quantity_gt : Int
  city_regex : Option String
  tags_eq : Option String
deriving DecidableEq

def buildFilter (now : Int) (city tag : Option String) : FilterDict :=
  { pickup_end_gte := now
    quantity_gt := 0
    city_regex := if pyTruthy city then city else none
    tags_eq := if pyTruthy tag then tag else none }

/-- Whether one offer document satisfies the filter document. A tag
equality clause against an array field is Mongo membership. -/
def matchesFilter (f : FilterDict) (o : Offer) : Bool :=
  decide (f.pickup_end_gte ≤ o.pickup_end) &&
  decide (f.quantity_gt < o.quantity) &&
  (match f.city_regex with
   | none => true
   | some pat => cityRegexMatchI pat o.city) &&
  (match f.tags_eq with
   | none => true
   | some t => o.tags.contains t)

/-- Modelled from the spec: get_documents lives in database.py, which is
not part of the sources; per the spec it returns all documents of the
collection that satisfy the filter, in collection order. -/
def get_documents (f : FilterDict) (st : OfferStore) : OfferStore :=
  st.filter fun e => matchesFilter f e.2

/-- GET /offers (main.py list_offers, lines 47-74), with the db
configured. Serialization to JSON renames _id and stringifies datetimes
without dropping documents, so the result is modelled as the matching
documents themselves. -/
def list_offers (now : Int) (city tag : Option String) (st : OfferStore) : OfferStore :=
  get_documents (buildFilter now city tag) st

/-- Raw JSON body of POST /offers before pydantic validation; a field is
none when absent from the request. -/
structure OfferCreateInput where
  store_id : Option String
  title : Option String
  description : Option String
  image_url : Option String
  city : Option String
  original_price : Option Int
  price : Option Int
  quantity : Option Int
  pickup_start : Option Int
  pickup_end : Option Int
  tags : Option (List String)
deriving DecidableEq

/-- Validated POST /offers payload (main.py OfferCreate, lines 22-33).
Note the model declares no bound on the numeric fields. -/
structure OfferCreate where
  store_id : String
  title : String
  description : Option String
  image_url : Option String
  city : String
  original_price : Int
  price : Int
  quantity : Int
  pickup_start : Int
  pickup_end : Int
  tags : List String
deriving DecidableEq

/-- Pydantic validation of OfferCreate: the fields without defaults must
be present; description and image_url default to None and tags to the
empty list. No numeric constraint is declared on this model. -/
def parseOfferCreate (i : OfferCreateInput) : Option OfferCreate :=
  match i.store_id, i.title, i.city, i.original_price, i.price, i.quantity,
        i.pickup_start, i.pickup_end with
  | some sid, some ttl, some cty, some opr, some pr, some qty, some ps, some pe =>
    some { store_id := sid, title := ttl, description := i.description,
           image_url := i.image_url, city := cty, original_price := opr,
           price := pr, quantity := qty, pickup_start := ps, pickup_end := pe,
           tags := i.tags.getD [] }
  | _, _, _, _, _, _, _, _ => none

/-- The document persisted for a validated payload: model_dump of the
OfferCreate fields; updated_at does not exist until a reservation sets
it. -/
def offerOfCreate (o : OfferCreate) : Offer :=
  { store_id := o.store_id, title := o.title, description := o.description,
    image_url := o.image_url, city := o.city, original_price := o.original_price,
    price := o.price, quantity := o.quantity, pickup_start := o.pickup_start,
    pickup_end := o.pickup_end, tags := o.tags, updated_at := none }

/-- The constraints schemas.py declares on the Offer collection model
(lines 36-38): original_price, price and quantity all at least zero.
main.py never applies this model to the request. -/
def schemasOfferOk (o : OfferCreate) : Bool :=
  decide (0 ≤ o.original_price) && decide (0 ≤ o.price) && decide (0 ≤ o.quantity)

/-- POST /offers (main.py create_offer, lines 77-83), with the db
configured: pydantic validation of the body, then persistence.
The persistence step create_document lives in database.py, which is not
part of the sources; modelled from the spec: it appends the document to
the collection and returns its new id. An error value is the 422
validation failure produced by pydantic. -/
def create_offer (freshId : String) (i : OfferCreateInput) (st : OfferStore) :
    Except Unit (String × OfferStore) :=
  match parseOfferCreate i with
  | none => Except.error ()
  | some o => Except.ok (freshId, st ++ [(freshId, offerOfCreate o)])

/-- An arbitrary interleaving of atomic tryReserveOne steps: each list
element is one step's time and target offer id, executed in list order. -/
def runSteps : List (Int × String) → OfferStore → OfferStore
  | [], st => st
  | s :: rest, st => runSteps rest (tryReserveOne s.1 s.2 st).2

/-- Stand-in for the fresh ObjectIds minted during a reservation; their
value influences no branch of create_reservation. -/
def dummyOid : String := "000000000000000000000000"

/-- N invocations of POST /reservations for the same payload, executed in
some arbitrary order of their atomic commits; returns the final offer
store, the final reservation store, the number of invocations that
returned 201, and the number that failed with the 400 unavailable
response. -/
def runReserves (now : Int) (p : ReservationCreate) :
    Nat → OfferStore → ReservationStore → OfferStore × ReservationStore × Nat × Nat
  | 0, st, rs => (st, rs, 0, 0)
  | n + 1, st, rs =>
    let step := create_reservation now dummyOid dummyOid p st rs
    let rest := runReserves now p n step.2.1 step.2.2
    match step.1 with
    | Except.ok _ => (rest.1, rest.2.1, rest.2.2.1 + 1, rest.2.2.2)
    | Except.error ReserveError.unavailable => (rest.1, rest.2.1, rest.2.2.1, rest.2.2.2 + 1)
    | Except.error ReserveError.invalidId => (rest.1, rest.2.1, rest.2.2.1, rest.2.2.2)

/-- Uppercase alphanumeric characters: A to Z or 0 to 9. -/
def isUpperAlnum (c : Char) : Bool :=
  ('A' ≤ c && c ≤ 'Z') || ('0' ≤ c && c ≤ '9')

theorem upperChar_hex {c : Char} (h : c ∈ hexChars) :
    isUpperAlnum (upperChar c) = true := by
  simp only [hexChars, List.mem_cons, List.not_mem_nil, or_false] at h
  rcases h with rfl | rfl | rfl | rfl | rfl | rfl | rfl | rfl | rfl | rfl | rfl |
    rfl | rfl | rfl | rfl | rfl | rfl | rfl | rfl | rfl | rfl | rfl <;> decide

theorem pickupCodeOf_len {a : String} (ha : a.length = 24) :
    (pickupCodeOf a).length = 6 := by
  simp only [String.length] at ha
  simp [pickupCodeOf, strUpper, lastN, String.length, ha]

theorem pickupCodeOf_chars {a : String} (hhex : ∀ c ∈ a.data, c ∈ hexChars) :
    ∀ c ∈ (pickupCodeOf a).data, isUpperAlnum c = true := by
  intro c hc
  simp only [pickupCodeOf, strUpper, lastN, List.mem_map] at hc
  obtain ⟨d, hd, rfl⟩ := hc
  exact upperChar_hex (hhex d (List.drop_subset _ _ hd))

theorem regexCharsMatchI_literal {ps : List Char}
    (h : ∀ p ∈ ps, isRegexSpecial p = false) :
    ∀ cs : List Char, regexCharsMatchI ps cs = true ↔ ps.map lowerChar = cs.map lowerChar := by
  induction ps with
  | nil =>
    intro cs
    cases cs <;> simp [regexCharsMatchI]
  | cons p ps ih =>
    intro cs
    cases cs with
    | nil => simp [regexCharsMatchI]
    | cons c cs =>
      have hp : p ≠ '.' := by
        intro hc
        have h0 := h p (List.mem_cons_self _ _)
        rw [hc] at h0
        exact absurd h0 (by decide)
      have ihh := ih (fun q hq => h q (List.mem_cons_of_mem _ hq)) cs
      simp only [regexCharsMatchI, if_neg hp, List.map_cons, Bool.and_eq_true,
        decide_eq_true_eq, List.cons.injEq, ihh]

theorem matchesFilter_eq (now : Int) (city tag : Option String) (o : Offer) :
    matchesFilter (buildFilter now city tag) o = true ↔
      now ≤ o.pickup_end ∧ 0 < o.quantity ∧
      (∀ c : String, city = some c → c ≠ "" → cityRegexMatchI c o.city = true) ∧
      (∀ t : String, tag = some t → t ≠ "" → o.tags.contains t = true) := by
  rcases city with _ | c <;> rcases tag with _ | t
  · simp [matchesFilter, buildFilter, pyTruthy]
  · by_cases ht : t = ""
    · subst ht
      simp [matchesFilter, buildFilter, pyTruthy]
    · simp [matchesFilter, buildFilter, pyTruthy, ht, and_assoc]
  · by_cases hc : c = ""
    · subst hc
      simp [matchesFilter, buildFilter, pyTruthy]
    · simp [matchesFilter, buildFilter, pyTruthy, hc, and_assoc]
  · by_cases hc : c = "" <;> by_cases ht : t = ""
    · subst hc; subst ht
      simp [matchesFilter, buildFilter, pyTruthy]
    · subst hc
      simp [matchesFilter, buildFilter, pyTruthy, ht, and_assoc]
    · subst ht
      simp [matchesFilter, buildFilter, pyTruthy, hc, and_assoc]
    · simp [matchesFilter, buildFilter, pyTruthy, hc, ht, and_assoc]

theorem mem_list_offers_iff (now : Int) (city tag : Option String) (st : OfferStore)
    (e : String × Offer) :
    e ∈ list_offers now city tag st ↔
      e ∈ st ∧ (now ≤ e.2.pickup_end ∧ 0 < e.2.quantity ∧
        (∀ c : String, city = some c → c ≠ "" → cityRegexMatchI c e.2.city = true) ∧
        (∀ t : String, tag = some t → t ≠ "" → e.2.tags.contains t = true)) := by
  rw [list_offers, get_documents, List.mem_filter, matchesFilter_eq]

/-- C1: for an offer holding quantity Q, any N concurrent reservation
invocations against it - equivalently, the N atomic conditional
decrements committed in an arbitrary order - produce exactly min N Q
successful (201) responses, N - min N Q failures with the 400 unavailable
response, and leave the offer's quantity at max (Q - N) 0. -/
theorem c1_concurrent_reserves_min_max (now : Int) (p : ReservationCreate)
    (hid : isValidObjectId p.offer_id = true) :
    ∀ (N : Nat) (st : OfferStore) (rs : ReservationStore) (off : Offer) (Q : Nat),
      nodupKeys st → lookupOffer p.offer_id st = some off → off.quantity = (Q : Int) →
      (runReserves now p N st rs).2.2.1 = min N Q ∧
      (runReserves now p N st rs).2.2.2 = N - min N Q ∧
      ∃ off2, lookupOffer p.offer_id (runReserves now p N st rs).1 = some off2 ∧
        off2.quantity = max ((Q : Int) - (N : Int)) 0 := by
  intro N
  induction N with
  | zero =>
    intro st rs off Q hnd hlk hq
    simp only [runReserves]
    refine ⟨by omega, by omega, off, hlk, ?_⟩
    rw [hq]
    omega
  | succ n ih =>
    intro st rs off Q hnd hlk hq
    by_cases hQ : Q = 0
    · subst hQ
      have hle : off.quantity ≤ 0 := by rw [hq]; omega
      have hfail := create_reservation_soldout now dummyOid dummyOid p st rs hid hnd hlk hle
      have ihh := ih st rs off 0 hnd hlk hq
      simp only [runReserves, hfail]
      refine ⟨?_, ?_, ?_⟩
      · rw [ihh.1]
        omega
      · rw [ihh.2.1]
        omega
      · obtain ⟨off2, h2, h3⟩ := ihh.2.2
        refine ⟨off2, h2, ?_⟩
        rw [h3]
        omega
    · obtain ⟨q, rfl⟩ : ∃ q, Q = q + 1 := ⟨Q - 1, by omega⟩
      have hq0 : 0 < off.quantity := by
        rw [hq]
        exact_mod_cast Nat.succ_pos q
      have hsucc := create_reservation_success now dummyOid dummyOid p st rs hid hnd hlk hq0
      have hnd2 : nodupKeys (mapUpd p.offer_id (reserveUpdate now off) st) := by
        unfold nodupKeys
        rw [storeKeys_mapUpd]
        exact hnd
      have hlk2 : lookupOffer p.offer_id (mapUpd p.offer_id (reserveUpdate now off) st) =
          some (reserveUpdate now off) := lookupOffer_mapUpd_self _ hlk
      have hq2 : (reserveUpdate now off).quantity = (q : Int) := by
        show off.quantity - 1 = (q : Int)
        rw [hq]
        push_cast
        ring
      have ihh := ih (mapUpd p.offer_id (reserveUpdate now off) st)
        (rs ++ [(dummyOid, (⟨p.offer_id, p.user_name, p.user_phone, "reserved",
          pickupCodeOf dummyOid⟩ : ReservationDoc))])
        (reserveUpdate now off) q hnd2 hlk2 hq2
      simp only [runReserves, hsucc]
      refine ⟨?_, ?_, ?_⟩
      · rw [ihh.1]
        omega
      · rw [ihh.2.1]
        omega
      · obtain ⟨off2, h2, h3⟩ := ihh.2.2
        refine ⟨off2, h2, ?_⟩
        rw [h3]
        push_cast
        omega

/-- C2: starting from any store whose quantities are all nonnegative,
every sequence of atomic tryReserveOne steps - hence every interleaving
of concurrent calls, each call being one such atomic step - keeps every
offer's quantity nonnegative; no step ever drives a quantity below
zero. -/
theorem c2_quantity_never_negative (steps : List (Int × String)) (st : OfferStore)
    (h : ∀ f ∈ st, 0 ≤ f.2.quantity) :
    ∀ f ∈ runSteps steps st, 0 ≤ f.2.quantity := by
  induction steps generalizing st with
  | nil => exact h
  | cons s rest ih =>
    simp only [runSteps]
    exact ih _ (tryReserveOne_nonneg s.1 s.2 h)

/-- C3: a reservation request whose well-formed offer id resolves to no
document, or to a document with quantity zero, fails with the one generic
unavailable outcome (the 400 response that does not distinguish the two
cases) and performs no mutation: the offer collection and the
reservation collection are returned unchanged. -/
theorem c3_unavailable_no_mutation (now : Int) (a b : String) (p : ReservationCreate)
    (st : OfferStore) (resvs : ReservationStore)
    (hid : isValidObjectId p.offer_id = true) (hnd : nodupKeys st)
    (h : lookupOffer p.offer_id st = none ∨
      ∃ off, lookupOffer p.offer_id st = some off ∧ off.quantity = 0) :
    create_reservation now a b p st resvs =
      (Except.error ReserveError.unavailable, st, resvs) := by
  rcases h with h | ⟨off, hlk, hq⟩
  · exact create_reservation_absent now a b p st resvs hid h
  · exact create_reservation_soldout now a b p st resvs hid hnd hlk (by omega)

/-- C6: a successful tryReserveOne decrements the matched offer's
quantity by exactly one and refreshes its modification timestamp, leaves
every other field of that offer untouched, and leaves every other
document of the collection untouched (same keys, same length, unchanged
lookups). -/
theorem c6_reserve_decrement_frame (now : Int) (oid : String) (st : OfferStore) (off : Offer)
    (hnd : nodupKeys st) (hlk : lookupOffer oid st = some off) (hq : 0 < off.quantity) :
    tryReserveOne now oid st =
      (some (reserveUpdate now off), mapUpd oid (reserveUpdate now off) st) ∧
    (∀ k, k ≠ oid → lookupOffer k (tryReserveOne now oid st).2 = lookupOffer k st) ∧
    lookupOffer oid (tryReserveOne now oid st).2 = some (reserveUpdate now off) ∧
    (tryReserveOne now oid st).2.length = st.length ∧
    storeKeys (tryReserveOne now oid st).2 = storeKeys st ∧
    (reserveUpdate now off).quantity = off.quantity - 1 ∧
    (reserveUpdate now off).updated_at = some now ∧
    (reserveUpdate now off).store_id = off.store_id ∧
    (reserveUpdate now off).title = off.title ∧
    (reserveUpdate now off).description = off.description ∧
    (reserveUpdate now off).image_url = off.image_url ∧
    (reserveUpdate now off).city = off.city ∧
    (reserveUpdate now off).original_price = off.original_price ∧
    (reserveUpdate now off).price = off.price ∧
    (reserveUpdate now off).pickup_start = off.pickup_start ∧
    (reserveUpdate now off).pickup_end = off.pickup_end ∧
    (reserveUpdate now off).tags = off.tags := by
  have hs := tryReserveOne_success now hnd hlk hq
  refine ⟨hs, ?_, ?_, ?_, storeKeys_tryReserveOne now oid st,
    rfl, rfl, rfl, rfl, rfl, rfl, rfl, rfl, rfl, rfl, rfl, rfl⟩
  · intro k hk
    rw [hs]
    exact lookupOffer_mapUpd_other _ hk
  · rw [hs]
    exact lookupOffer_mapUpd_self _ hlk
  · rw [hs]
    simp [mapUpd]

/-- C7: on a successful reservation the pickup code is the last six
characters of a freshly minted ObjectId string, uppercased - hence a
string of exactly six characters, each an uppercase alphanumeric
character - and the persisted reservation carries status "reserved", the
code and the supplied identity fields, while the response returns the new
reservation id with the code. -/
theorem c7_pickup_code_format (now : Int) (a b : String) (p : ReservationCreate)
    (st : OfferStore) (resvs : ReservationStore) (off : Offer)
    (hid : isValidObjectId p.offer_id = true) (hnd : nodupKeys st)
    (hlk : lookupOffer p.offer_id st = some off) (hq : 0 < off.quantity)
    (ha : isValidObjectId a = true) :
    create_reservation now a b p st resvs =
      (Except.ok (b, pickupCodeOf a),
       mapUpd p.offer_id (reserveUpdate now off) st,
       resvs ++ [(b, { offer_id := p.offer_id, user_name := p.user_name,
                       user_phone := p.user_phone, status := "reserved",
                       pickup_code := pickupCodeOf a })]) ∧
    (pickupCodeOf a).length = 6 ∧
    ∀ c ∈ (pickupCodeOf a).data, isUpperAlnum c = true := by
  have hobj : a.length = 24 ∧ ∀ c ∈ a.data, c ∈ hexChars := by
    simpa [isValidObjectId, List.all_eq_true] using ha
  exact ⟨create_reservation_success now a b p st resvs hid hnd hlk hq,
    pickupCodeOf_len hobj.1, pickupCodeOf_chars hobj.2⟩

/-- C8: the reservation path never consults the pickup window: an offer
whose pickup_end already lies in the past but whose quantity is positive
is still reserved successfully, its quantity decremented, even though
list_offers never returns that offer at the same instant. -/
theorem c8_reserve_ignores_pickup_window (now : Int) (a b : String) (p : ReservationCreate)
    (st : OfferStore) (resvs : ReservationStore) (off : Offer)
    (hid : isValidObjectId p.offer_id = true) (hnd : nodupKeys st)
    (hlk : lookupOffer p.offer_id st = some off)
    (hpast : off.pickup_end < now) (hq : 0 < off.quantity) :
    (∃ v, (create_reservation now a b p st resvs).1 = Except.ok v) ∧
    (∃ off2, lookupOffer p.offer_id (create_reservation now a b p st resvs).2.1 = some off2 ∧
      off2.quantity = off.quantity - 1) ∧
    (∀ city tag, (p.offer_id, off) ∉ list_offers now city tag st) := by
  have hs := create_reservation_success now a b p st resvs hid hnd hlk hq
  refine ⟨⟨(b, pickupCodeOf a), by rw [hs]⟩, ⟨reserveUpdate now off, ?_, rfl⟩, ?_⟩
  · rw [hs]
    exact lookupOffer_mapUpd_self _ hlk
  · intro city tag hmem
    rw [mem_list_offers_iff] at hmem
    have h2 : now ≤ off.pickup_end := hmem.2.1
    omega

/-- C9: a reservation request whose offer id is not a well-formed
24-character hexadecimal ObjectId string fails while constructing the
ObjectId, before any store lookup - the outcome is the invalidId error
for every store content, never the generic unavailable client error, and
no state changes. -/
theorem c9_malformed_objectid_raises (now : Int) (a b : String) (p : ReservationCreate)
    (st : OfferStore) (resvs : ReservationStore)
    (h : isValidObjectId p.offer_id = false) :
    create_reservation now a b p st resvs =
      (Except.error ReserveError.invalidId, st, resvs) ∧
    (∀ (st2 : OfferStore) (rs2 : ReservationStore),
      (create_reservation now a b p st2 rs2).1 = Except.error ReserveError.invalidId ∧
      (create_reservation now a b p st2 rs2).1 ≠ Except.error ReserveError.unavailable) := by
  refine ⟨create_reservation_invalid now a b p st resvs h, fun st2 rs2 => ?_⟩
  rw [create_reservation_invalid now a b p st2 rs2 h]
  exact ⟨rfl, by simp⟩

/-- C10: an empty city or tag query parameter is falsy in Python, so the
corresponding filter clause is simply not added: the listing equals the
listing with that parameter absent, rather than selecting offers with an
empty city or tag. -/
theorem c10_empty_query_params_ignored (now : Int) (city tag : Option String)
    (st : OfferStore) :
    list_offers now (some "") tag st = list_offers now none tag st ∧
    list_offers now city (some "") st = list_offers now city none st := by
  constructor
  · have h : buildFilter now (some "") tag = buildFilter now none tag := by
      simp [buildFilter, pyTruthy]
    rw [list_offers, list_offers, h]
  · have h : buildFilter now city (some "") = buildFilter now city none := by
      simp [buildFilter, pyTruthy]
    rw [list_offers, list_offers, h]

/-- C5 (amended): list_offers returns exactly the offers with
pickup_end at least now and quantity above zero that also satisfy the
provided filters, where the city filter is an anchored case-insensitive
regular-expression match of the query value against the offer's city -
which coincides with case-insensitive exact equality whenever the query
value contains no regex metacharacter - and the tag filter is membership
in the offer's tag list; expired or sold-out offers are never returned
and no error arises when nothing matches. -/
theorem c5_list_active_filter_characterization (now : Int) (city tag : Option String)
    (st : OfferStore) (e : String × Offer) :
    (e ∈ list_offers now city tag st ↔
      e ∈ st ∧ (now ≤ e.2.pickup_end ∧ 0 < e.2.quantity ∧
        (∀ c : String, city = some c → c ≠ "" → cityRegexMatchI c e.2.city = true) ∧
        (∀ t : String, tag = some t → t ≠ "" → e.2.tags.contains t = true))) ∧
    (∀ c s : String, (∀ ch ∈ c.data, isRegexSpecial ch = false) →
      (cityRegexMatchI c s = true ↔ strLower c = strLower s)) := by
  refine ⟨mem_list_offers_iff now city tag st e, fun c s hc => ?_⟩
  show regexCharsMatchI c.data s.data = true ↔ _
  rw [regexCharsMatchI_literal hc s.data]
  simp [strLower, String.ext_iff]

/-- Sample documents for the closed instantiations below. -/
def oidA : String := "aaaaaaaaaaaaaaaaaaaaaaaa"

def oidHexB : String := "507f1f77bcf86cd799439011"

def berlinOffer : Offer :=
  { store_id := "s1", title := "Surprise bag", description := none, image_url := none,
    city := "Berlin", original_price := 10, price := 4, quantity := 2,
    pickup_start := 0, pickup_end := 100, tags := ["vegan"], updated_at := none }

def expiredOffer : Offer :=
  { berlinOffer with pickup_end := -5, quantity := 1 }

def samplePayload : ReservationCreate :=
  { offer_id := oidA, user_name := "Ada", user_phone := "030" }

def badPayload : ReservationCreate :=
  { offer_id := "not-an-objectid", user_name := "Ada", user_phone := "030" }

/-- C5 counterexample: the claim's "case-insensitive exact match" fails
on the code, because list_offers interpolates the raw query value into an
anchored regex: the filter value "Berli.", which is not case-insensitively
equal to "Berlin", nevertheless returns the Berlin offer (its final dot
matches the letter n). -/
theorem c5_city_filter_not_exact_counterexample :
    list_offers 0 (some "Berli.") none [(oidA, berlinOffer)] = [(oidA, berlinOffer)] ∧
    ciExactMatch "Berli." "Berlin" = false := by
  constructor
  · decide
  · decide

/-- POST /offers body with every required field present but negative
price and quantity. -/
def badOfferInput : OfferCreateInput :=
  { store_id := some "s1", title := some "Bag", description := none, image_url := none,
    city := some "Berlin", original_price := some 5, price := some (-1),
    quantity := some (-2), pickup_start := some 0, pickup_end := some 100,
    tags := some [] }

/-- What pydantic validation accepts for that body. -/
def badOfferParsed : OfferCreate :=
  { store_id := "s1", title := "Bag", description := none, image_url := none,
    city := "Berlin", original_price := 5, price := -1, quantity := -2,
    pickup_start := 0, pickup_end := 100, tags := [] }

/-- C4: the endpoint's request model OfferCreate (main.py) declares no
lower bound on original_price, price or quantity, so a body with negative
price and quantity passes validation and is persisted as given - though
the very constraints schemas.py declares for the offer collection reject
it - while a body missing a required field does fail validation. -/
theorem c4_negative_numbers_accepted :
    parseOfferCreate badOfferInput = some badOfferParsed ∧
    create_offer "o1" badOfferInput [] =
      Except.ok ("o1", [("o1", offerOfCreate badOfferParsed)]) ∧
    schemasOfferOk badOfferParsed = false ∧
    (offerOfCreate badOfferParsed).price = -1 ∧
    (offerOfCreate badOfferParsed).quantity = -2 ∧
    (∀ i : OfferCreateInput, i.title = none → create_offer "o1" i [] = Except.error ()) := by
  refine ⟨rfl, rfl, by decide, rfl, rfl, ?_⟩
  intro i hi
  cases hs : i.store_id <;> simp [create_offer, parseOfferCreate, hs, hi]

/-- Closed instantiation of c1: quantity two, three requests - two 201
responses, one 400 unavailable, final quantity zero. -/
theorem c1_witness_two_of_three :
    (runReserves 7 samplePayload 3 [(oidA, berlinOffer)] []).2.2.1 = min 3 2 ∧
    (runReserves 7 samplePayload 3 [(oidA, berlinOffer)] []).2.2.2 = 3 - min 3 2 ∧
    ∃ off2, lookupOffer samplePayload.offer_id
        (runReserves 7 samplePayload 3 [(oidA, berlinOffer)] []).1 = some off2 ∧
      off2.quantity = max (((2 : Nat) : Int) - ((3 : Nat) : Int)) 0 :=
  c1_concurrent_reserves_min_max 7 samplePayload (by decide) 3 [(oidA, berlinOffer)] []
    berlinOffer 2 (by decide) (by decide) (by decide)

/-- Closed instantiation of c2 after one step on a quantity-two offer. -/
theorem c2_witness_after_step : 0 ≤ (oidA, reserveUpdate 7 berlinOffer).2.quantity :=
  c2_quantity_never_negative [(7, oidA)] [(oidA, berlinOffer)] (by decide)
    (oidA, reserveUpdate 7 berlinOffer) (by decide)

/-- Closed instantiation of c3 on the empty store. -/
theorem c3_witness_empty_store :
    create_reservation 7 oidHexB "r1" samplePayload [] [] =
      (Except.error ReserveError.unavailable, [], []) :=
  c3_unavailable_no_mutation 7 oidHexB "r1" samplePayload [] [] (by decide) (by decide)
    (Or.inl (by decide))

/-- Closed instantiation of c6 on a one-offer store. -/
theorem c6_witness_single_offer :
    tryReserveOne 7 oidA [(oidA, berlinOffer)] =
      (some (reserveUpdate 7 berlinOffer),
       mapUpd oidA (reserveUpdate 7 berlinOffer) [(oidA, berlinOffer)]) :=
  (c6_reserve_decrement_frame 7 oidA [(oidA, berlinOffer)] berlinOffer (by decide)
    (by decide) (by decide)).1

/-- Closed instantiation of c7 for a concrete fresh ObjectId. -/
theorem c7_witness_code_shape :
    (pickupCodeOf oidHexB).length = 6 ∧
    ∀ c ∈ (pickupCodeOf oidHexB).data, isUpperAlnum c = true :=
  (c7_pickup_code_format 7 oidHexB "r1" samplePayload [(oidA, berlinOffer)] [] berlinOffer
    (by decide) (by decide) (by decide) (by decide) (by decide)).2

/-- Closed instantiation of c8 on an offer whose window closed at -5,
reserved at time 10. -/
theorem c8_witness_expired_still_reserved :
    ∃ v, (create_reservation 10 oidHexB "r1" samplePayload [(oidA, expiredOffer)] []).1 =
      Except.ok v :=
  (c8_reserve_ignores_pickup_window 10 oidHexB "r1" samplePayload [(oidA, expiredOffer)] []
    expiredOffer (by decide) (by decide) (by decide) (by decide) (by decide)).1

/-- Closed instantiation of c9 for a malformed offer id. -/
theorem c9_witness_malformed_id :
    create_reservation 7 oidHexB "r1" badPayload [(oidA, berlinOffer)] [] =
      (Except.error ReserveError.invalidId, [(oidA, berlinOffer)], []) :=
  (c9_malformed_objectid_raises 7 oidHexB "r1" badPayload [(oidA, berlinOffer)] []
    (by decide)).1
